import Mathlib

/-!
Verification of the `upload` subcommand argument model of the ffsend CLI
(`src/cli/src/cmd/cmd_upload.rs`).

The Rust code is shallowly embedded: the clap `ArgMatches` value is modelled
as a pair of query functions, the external URL parser (`ffsend_api::url`,
a re-export of the rust-url crate) is a parameter producing either a parsed
`Url` or a `ParseError`, and the three effects an accessor can have —
returning normally, terminating via `quit_error_msg`, or panicking via
`panic!` / `expect` — are reified in the `Outcome` type.
-/

namespace Ffsend

/-- Error kinds of the external structured URL parser (`ffsend_api::url::ParseError`,
the rust-url crate's error enum). The six kinds named by `CmdUpload::host` are
listed first; the remaining variants are the other kinds of the crate's enum,
which the `_` arm of the Rust `match` catches. -/
inductive ParseError where
  | EmptyHost
  | InvalidPort
  | InvalidIpv4Address
  | InvalidIpv6Address
  | InvalidDomainCharacter
  | RelativeUrlWithoutBase
  | IdnaError
  | Overflow
  | RelativeUrlWithCannotBeABaseBase
  | SetHostOnCannotBeABaseUrl
  deriving DecidableEq

/-- A parsed URL value (`ffsend_api::url::Url`). The parser is external to the
repository, so the parsed value is kept abstract as its raw rendering. -/
structure Url where
  raw : String
  deriving DecidableEq

/-- The observable result of calling an accessor of `CmdUpload`: a normal
return, process termination with a user-facing message (`quit_error_msg`), or
a program fault (`panic!` / `Option::expect` / `Result::expect`). -/
inductive Outcome (α : Type) where
  | ok (a : α)
  | quit (msg : String)
  | panicked (msg : String)
  deriving DecidableEq

/-- Model of clap's `ArgMatches` for a single subcommand: `value_of` returns
the first value given for an argument key (None when the argument carries no
value), `is_present` reports whether the argument occurred at all. -/
structure ArgMatches where
  value_of : String → Option String
  is_present : String → Bool

/-- Model of the parent command's `ArgMatches`: only the subcommand lookup
`subcommand_matches` is relevant to `CmdUpload::parse`. -/
structure ParentMatches where
  subcommand_matches : String → Option ArgMatches

/-- The upload command (`struct CmdUpload` of `cmd_upload.rs`): a wrapper
holding a reference to the parsed argument «matches». -/
structure CmdUpload where
  «matches» : ArgMatches

/-- Model of `rpassword::prompt_password_stderr`: an echo-suppressed
interactive read from the controlling terminal, with the prompt text printed
on the error/status stream. The field maps the prompt text to either the line
the user entered or an I/O error description. -/
structure PromptChannel where
  readPassword : String → Except String String

/-- Model of Rust's `str::trim` (std, external to the repository): drop
leading and trailing whitespace characters; whitespace is modelled by
`Char.isWhitespace`. -/
def strTrim (s : String) : String :=
  String.mk (((s.data.dropWhile Char.isWhitespace).reverse.dropWhile
    Char.isWhitespace).reverse)

/-- Modelled from the spec: the well-known default Send host constant
`SEND_DEF_HOST`, declared in the application module `app` which is not among
the sources; the spec describes it only as "a well-known constant host URL". -/
def SEND_DEF_HOST : String := "https://send.firefox.com/"

/-- One clap argument definition (the fields set by the builder calls in
`CmdUpload::build`). -/
structure Arg where
  name : String
  long : Option String
  short : Option String
  aliases : List String
  value_name : Option String
  required : Bool
  multiple : Bool
  min_values : Option Nat
  max_values : Option Nat
  default_value : Option String
  help : Option String
  deriving DecidableEq

/-- A clap subcommand definition (`App`): name, about text, visible aliases
and argument list. -/
structure App where
  name : String
  about : Option String
  visible_aliases : List String
  args : List Arg
  deriving DecidableEq

/-- The positional `FILE` argument of `CmdUpload::build`. -/
def fileArg : Arg :=
  { name := "FILE", long := none, short := none, aliases := [],
    value_name := none, required := true, multiple := false,
    min_values := none, max_values := none, default_value := none,
    help := some "The file to upload" }

/-- The `--name` argument of `CmdUpload::build`. -/
def nameArg : Arg :=
  { name := "name", long := some "name", short := some "n",
    aliases := ["file", "f"], value_name := some "NAME", required := false,
    multiple := false, min_values := none, max_values := none,
    default_value := none, help := some "Rename the file being uploaded" }

/-- The `--password` argument of `CmdUpload::build`. -/
def passwordArg : Arg :=
  { name := "password", long := some "password", short := some "p",
    aliases := ["pass"], value_name := some "PASSWORD", required := false,
    multiple := false, min_values := some 0, max_values := some 1,
    default_value := none, help := some "Protect the file with a password" }

/-- The `--host` argument of `CmdUpload::build`. -/
def hostArg : Arg :=
  { name := "host", long := some "host", short := some "h",
    aliases := ["server"], value_name := some "URL", required := false,
    multiple := false, min_values := none, max_values := none,
    default_value := some SEND_DEF_HOST,
    help := some "The Send host to upload to" }

/-- The `--open` argument of `CmdUpload::build`. -/
def openArg : Arg :=
  { name := "open", long := some "open", short := some "o", aliases := [],
    value_name := none, required := false, multiple := false,
    min_values := none, max_values := none, default_value := none,
    help := some "Open the share link in your browser" }

/-- The `--copy` argument of `CmdUpload::build`, registered only when the
`clipboard` cargo feature is compiled in. -/
def copyArg : Arg :=
  { name := "copy", long := some "copy", short := some "c", aliases := [],
    value_name := none, required := false, multiple := false,
    min_values := none, max_values := none, default_value := none,
    help := some "Copy the share link to your clipboard" }

/-- `CmdUpload::build`: the subcommand schema. The `clipboard` parameter
models the compile-time `#[cfg(feature = "clipboard")]` gate that appends the
`copy` argument. -/
def CmdUpload.build (clipboard : Bool) : App :=
  let cmd : App :=
    { name := "upload", about := some "Upload files.",
      visible_aliases := ["u", "up"],
      args := [fileArg, nameArg, passwordArg, hostArg, openArg] }
  if clipboard then { cmd with args := cmd.args ++ [copyArg] } else cmd

/-- Declared default value of an argument key in a schema (the value clap
supplies to the «matches» when the flag is omitted on the command line). -/
def App.default_of (app : App) (key : String) : Option String :=
  (app.args.find? (fun a => a.name == key)).bind (fun a => a.default_value)

/-- `CmdUpload::parse`: wrap the «matches» of the `upload` subcommand of the
parent «matches», when present. -/
def CmdUpload.parse (parent : ParentMatches) : Option CmdUpload :=
  (parent.subcommand_matches "upload").map (fun «matches» => { «matches» := «matches» })

/-- `CmdUpload::name`: the custom name for the uploaded file; `none` when no
custom name was given; panics when the trimmed name is empty. -/
def CmdUpload.name (self : CmdUpload) : Outcome (Option String) :=
  match self.«matches».value_of "name" with
  | none => Outcome.ok none
  | some name =>
    if (strTrim name).isEmpty then
      Outcome.panicked "the new name must not be empty"
    else
      Outcome.ok (some name)

/-- `CmdUpload::file`: the selected file to upload; `expect`s its presence. -/
def CmdUpload.file (self : CmdUpload) : Outcome String :=
  match self.«matches».value_of "FILE" with
  | some file => Outcome.ok file
  | none => Outcome.panicked "no file specified to upload"

/-- `CmdUpload::host`: parse the raw host value into a `Url`, terminating
with a specific user-facing message per parse-error kind. `parseUrl` is the
external structured URL parser (`Url::parse`). -/
def CmdUpload.host (parseUrl : String → Except ParseError Url)
    (self : CmdUpload) : Outcome Url :=
  match self.«matches».value_of "host" with
  | none => Outcome.panicked "missing host"
  | some host =>
    match parseUrl host with
    | Except.ok url => Outcome.ok url
    | Except.error ParseError.EmptyHost =>
        Outcome.quit "Emtpy host given"
    | Except.error ParseError.InvalidPort =>
        Outcome.quit "Invalid host port"
    | Except.error ParseError.InvalidIpv4Address =>
        Outcome.quit "Invalid IPv4 address in host"
    | Except.error ParseError.InvalidIpv6Address =>
        Outcome.quit "Invalid IPv6 address in host"
    | Except.error ParseError.InvalidDomainCharacter =>
        Outcome.quit "Host domains contains an invalid character"
    | Except.error ParseError.RelativeUrlWithoutBase =>
        Outcome.quit "Host domain doesn't contain a host"
    | Except.error _ =>
        Outcome.quit "The given host is invalid"

/-- `CmdUpload::open`: whether to open the share link in the browser. -/
def CmdUpload.openFlag (self : CmdUpload) : Bool :=
  self.«matches».is_present "open"

/-- `CmdUpload::copy`: whether to copy the share link to the clipboard
(compiled only with the `clipboard` feature). -/
def CmdUpload.copy (self : CmdUpload) : Bool :=
  self.«matches».is_present "copy"

/-- `CmdUpload::password`: `none` when the password flag is absent; the
explicit value when one was given; otherwise the line read from the
interactive echo-suppressed channel, panicking if that read fails. -/
def CmdUpload.password (chan : PromptChannel) (self : CmdUpload) :
    Outcome (Option String) :=
  if !(self.«matches».is_present "password") then
    Outcome.ok none
  else
    match self.«matches».value_of "password" with
    | some password => Outcome.ok (some password)
    | none =>
      match chan.readPassword "Password: " with
      | Except.ok line => Outcome.ok (some line)
      | Except.error _ =>
          Outcome.panicked "failed to read password from stdin"

/-- Concrete matches for exercising `host` on an invalid-port parse failure. -/
def wHostBadPort : CmdUpload :=
  ⟨⟨fun _ => some "https://example.com:x", fun _ => true⟩⟩

/-- Concrete parser that fails every input with `InvalidPort`. -/
def wParsePort : String → Except ParseError Url :=
  fun _ => Except.error ParseError.InvalidPort

/-- Concrete matches whose host value `"http://"` triggers the empty-host
parse failure. -/
def emptyHostMatches : CmdUpload :=
  ⟨⟨fun _ => some "http://", fun _ => true⟩⟩

/-- Concrete parser that fails every input with `EmptyHost`, as the rust-url
crate does on `"http://"`. -/
def emptyHostParse : String → Except ParseError Url :=
  fun _ => Except.error ParseError.EmptyHost

/-- Concrete matches with no password flag at all. -/
def wPwAbsent : CmdUpload := ⟨⟨fun _ => none, fun _ => false⟩⟩

/-- Concrete matches with the password flag carrying the explicit empty
string. -/
def wPwExplicitEmpty : CmdUpload := ⟨⟨fun _ => some "", fun _ => true⟩⟩

/-- Concrete matches with the password flag present but valueless. -/
def wPwPrompt : CmdUpload := ⟨⟨fun _ => none, fun _ => true⟩⟩

/-- Concrete interactive channel on which the user enters `hunter2`. -/
def wChanHunter : PromptChannel := ⟨fun _ => Except.ok "hunter2"⟩

/-- Concrete matches whose name value is the single-space string. -/
def wsNameMatches : CmdUpload := ⟨⟨fun _ => some " ", fun _ => true⟩⟩

/-- Concrete matches whose name value is non-empty after trimming. -/
def wNameSome : CmdUpload := ⟨⟨fun _ => some " report.pdf ", fun _ => true⟩⟩

/-- Concrete matches with no name flag. -/
def wNameNone : CmdUpload := ⟨⟨fun _ => none, fun _ => false⟩⟩

/-- Concrete matches carrying a syntactically valid host string. -/
def wHostOkM : CmdUpload :=
  ⟨⟨fun _ => some "https://send.example.com", fun _ => true⟩⟩

/-- Concrete parser that accepts every input, returning it as the raw
rendering of the URL. -/
def wParseOk : String → Except ParseError Url :=
  fun s => Except.ok ⟨s⟩

/-- Concrete matches holding the schema default host value, as clap produces
them when `--host` is omitted. -/
def wDefaultM : CmdUpload := ⟨⟨fun _ => some SEND_DEF_HOST, fun _ => false⟩⟩

/-- Concrete parser for the default-host witness, accepting every input. -/
def wParseDef : String → Except ParseError Url :=
  fun s => Except.ok ⟨s⟩

/-- Concrete matches carrying a FILE value. -/
def wFileM : CmdUpload := ⟨⟨fun _ => some "secret.txt", fun _ => true⟩⟩

/-- Concrete matches missing the FILE value. -/
def wFileNone : CmdUpload := ⟨⟨fun _ => none, fun _ => false⟩⟩

/-- Concrete subcommand matches for the parse witness. -/
def wArgM : ArgMatches := ⟨fun _ => none, fun _ => false⟩

/-- Concrete parent matches containing the `upload` subcommand. -/
def wParentSome : ParentMatches := ⟨fun _ => some wArgM⟩

/-- Concrete parent matches containing no subcommand. -/
def wParentNone : ParentMatches := ⟨fun _ => none⟩

/-- Evaluation lemma: once the raw host value `s` is fixed, `host` is the
match on `parseUrl s` written in the source. -/
theorem host_eq_of_value (parseUrl : String → Except ParseError Url)
    (self : CmdUpload) (s : String)
    (hs : self.«matches».value_of "host" = some s) :
    CmdUpload.host parseUrl self =
      (match parseUrl s with
      | Except.ok url => Outcome.ok url
      | Except.error ParseError.EmptyHost =>
          Outcome.quit "Emtpy host given"
      | Except.error ParseError.InvalidPort =>
          Outcome.quit "Invalid host port"
      | Except.error ParseError.InvalidIpv4Address =>
          Outcome.quit "Invalid IPv4 address in host"
      | Except.error ParseError.InvalidIpv6Address =>
          Outcome.quit "Invalid IPv6 address in host"
      | Except.error ParseError.InvalidDomainCharacter =>
          Outcome.quit "Host domains contains an invalid character"
      | Except.error ParseError.RelativeUrlWithoutBase =>
          Outcome.quit "Host domain doesn't contain a host"
      | Except.error _ =>
          Outcome.quit "The given host is invalid") := by
  unfold CmdUpload.host
  rw [hs]

/-- C1: for every raw host string whose structured-address parsing fails,
`host()` terminates with exactly the message of the failure kind — "Invalid
host port", "Invalid IPv4 address in host", "Invalid IPv6 address in host",
"Host domains contains an invalid character", or "Host domain doesn't
contain a host" — and with the catch-all "The given host is invalid" for any
kind other than the six named ones; it never returns a value to the caller
on a parse failure. -/
theorem upload_host_failure_messages
    (parseUrl : String → Except ParseError Url) (self : CmdUpload)
    (s : String) (e : ParseError)
    (hs : self.«matches».value_of "host" = some s)
    (he : parseUrl s = Except.error e) :
    (e = ParseError.InvalidPort →
      CmdUpload.host parseUrl self = Outcome.quit "Invalid host port") ∧
    (e = ParseError.InvalidIpv4Address →
      CmdUpload.host parseUrl self =
        Outcome.quit "Invalid IPv4 address in host") ∧
    (e = ParseError.InvalidIpv6Address →
      CmdUpload.host parseUrl self =
        Outcome.quit "Invalid IPv6 address in host") ∧
    (e = ParseError.InvalidDomainCharacter →
      CmdUpload.host parseUrl self =
        Outcome.quit "Host domains contains an invalid character") ∧
    (e = ParseError.RelativeUrlWithoutBase →
      CmdUpload.host parseUrl self =
        Outcome.quit "Host domain doesn't contain a host") ∧
    (e ≠ ParseError.EmptyHost → e ≠ ParseError.InvalidPort →
      e ≠ ParseError.InvalidIpv4Address → e ≠ ParseError.InvalidIpv6Address →
      e ≠ ParseError.InvalidDomainCharacter →
      e ≠ ParseError.RelativeUrlWithoutBase →
      CmdUpload.host parseUrl self = Outcome.quit "The given host is invalid") ∧
    (∀ u, CmdUpload.host parseUrl self ≠ Outcome.ok u) := by
  have hrw := host_eq_of_value parseUrl self s hs
  rw [he] at hrw
  refine ⟨fun h => ?_, fun h => ?_, fun h => ?_, fun h => ?_, fun h => ?_,
    fun h1 h2 h3 h4 h5 h6 => ?_, fun u hok => ?_⟩
  · subst h; exact hrw
  · subst h; exact hrw
  · subst h; exact hrw
  · subst h; exact hrw
  · subst h; exact hrw
  · cases e
    case EmptyHost => exact absurd rfl h1
    case InvalidPort => exact absurd rfl h2
    case InvalidIpv4Address => exact absurd rfl h3
    case InvalidIpv6Address => exact absurd rfl h4
    case InvalidDomainCharacter => exact absurd rfl h5
    case RelativeUrlWithoutBase => exact absurd rfl h6
    all_goals exact hrw
  · rw [hrw] at hok
    cases e <;> exact Outcome.noConfusion hok

/-- Witness for C1: with a parser failing on `"https://example.com:x"` with
`InvalidPort`, `host` quits with exactly "Invalid host port". -/
theorem upload_host_failure_messages_witness :
    CmdUpload.host wParsePort wHostBadPort = Outcome.quit "Invalid host port" :=
  (upload_host_failure_messages wParsePort wHostBadPort "https://example.com:x"
    ParseError.InvalidPort rfl rfl).1 rfl

/-- C2 (code bug): on an empty-host parse failure the code prints the
misspelled message "Emtpy host given", not the "Empty host given" the spec
states; evaluated here at the failing input host string `"http://"`. -/
theorem upload_host_empty_typo :
    CmdUpload.host emptyHostParse emptyHostMatches =
      Outcome.quit "Emtpy host given" ∧
    CmdUpload.host emptyHostParse emptyHostMatches ≠
      Outcome.quit "Empty host given" := by
  constructor
  · rfl
  · decide

/-- C6: for every raw host string the structured parser accepts, `host()`
returns exactly the parser's result. -/
theorem upload_host_success
    (parseUrl : String → Except ParseError Url) (self : CmdUpload)
    (s : String) (u : Url)
    (hs : self.«matches».value_of "host" = some s)
    (hp : parseUrl s = Except.ok u) :
    CmdUpload.host parseUrl self = Outcome.ok u := by
  rw [host_eq_of_value parseUrl self s hs, hp]

/-- Witness for C6: a parser accepting `"https://send.example.com"` makes
`host` return that parse. -/
theorem upload_host_success_witness :
    CmdUpload.host wParseOk wHostOkM = Outcome.ok ⟨"https://send.example.com"⟩ :=
  upload_host_success wParseOk wHostOkM "https://send.example.com"
    ⟨"https://send.example.com"⟩ rfl rfl

/-- C7: the schema built by `build` declares `SEND_DEF_HOST` as the `host`
argument's default value, so matches carrying that default (what clap
produces when `--host` is omitted) make `host()` resolve to the parse of
`SEND_DEF_HOST`. -/
theorem upload_default_host (clipboard : Bool)
    (parseUrl : String → Except ParseError Url) (self : CmdUpload) (u : Url)
    (hm : self.«matches».value_of "host" =
      App.default_of (CmdUpload.build clipboard) "host")
    (hp : parseUrl SEND_DEF_HOST = Except.ok u) :
    App.default_of (CmdUpload.build clipboard) "host" = some SEND_DEF_HOST ∧
    CmdUpload.host parseUrl self = Outcome.ok u := by
  have hd : App.default_of (CmdUpload.build clipboard) "host" =
      some SEND_DEF_HOST := by
    cases clipboard <;> rfl
  refine ⟨hd, ?_⟩
  rw [host_eq_of_value parseUrl self SEND_DEF_HOST (hm.trans hd), hp]

/-- Witness for C7: matches holding the default host value resolve to the
parse of `SEND_DEF_HOST` (with the clipboard feature enabled). -/
theorem upload_default_host_witness :
    App.default_of (CmdUpload.build true) "host" = some SEND_DEF_HOST ∧
    CmdUpload.host wParseDef wDefaultM = Outcome.ok ⟨SEND_DEF_HOST⟩ :=
  upload_default_host true wParseDef wDefaultM ⟨SEND_DEF_HOST⟩ rfl rfl

/-- C3: `password()` returns `none` when the password flag is absent; the
explicit value verbatim (including the empty string) when one was given; and
the line entered on the interactive echo-suppressed channel, prompted with
"Password: ", when the flag is present without a value. -/
theorem upload_password_protocol (chan : PromptChannel) (self : CmdUpload) :
    (self.«matches».is_present "password" = false →
      CmdUpload.password chan self = Outcome.ok none) ∧
    (∀ v, self.«matches».is_present "password" = true →
      self.«matches».value_of "password" = some v →
      CmdUpload.password chan self = Outcome.ok (some v)) ∧
    (∀ line, self.«matches».is_present "password" = true →
      self.«matches».value_of "password" = none →
      chan.readPassword "Password: " = Except.ok line →
      CmdUpload.password chan self = Outcome.ok (some line)) := by
  refine ⟨fun h => ?_, fun v hp hv => ?_, fun line hp hv hc => ?_⟩
  · unfold CmdUpload.password
    rw [h]
    rfl
  · unfold CmdUpload.password
    rw [hp, hv]
    rfl
  · unfold CmdUpload.password
    rw [hp, hv, hc]
    rfl

/-- Witness for C3: absent flag gives `none`; an explicit empty string gives
`some ""`, distinct from unset; a valueless flag returns the interactively
entered line `hunter2`. -/
theorem upload_password_protocol_witness :
    CmdUpload.password wChanHunter wPwAbsent = Outcome.ok none ∧
    CmdUpload.password wChanHunter wPwExplicitEmpty = Outcome.ok (some "") ∧
    CmdUpload.password wChanHunter wPwPrompt = Outcome.ok (some "hunter2") :=
  ⟨(upload_password_protocol wChanHunter wPwAbsent).1 rfl,
   (upload_password_protocol wChanHunter wPwExplicitEmpty).2.1 "" rfl rfl,
   (upload_password_protocol wChanHunter wPwPrompt).2.2 "hunter2" rfl rfl rfl⟩

/-- C4 counterexample: at the whitespace-only raw name `" "` the code panics
with the message "the new name must not be empty", not the diagnostic "new
name must not be empty" the claim states. -/
theorem upload_name_diagnostic_counterexample :
    CmdUpload.name wsNameMatches =
      Outcome.panicked "the new name must not be empty" ∧
    CmdUpload.name wsNameMatches ≠
      Outcome.panicked "new name must not be empty" := by
  constructor
  · rfl
  · decide

/-- C4 as amended: for every raw name value consisting only of whitespace
(the trimmed value is empty, which includes the empty string), `name()`
signals the empty-name validation error with diagnostic "the new name must
not be empty" and does not return a value. -/
theorem upload_name_whitespace_rejected (self : CmdUpload) (s : String)
    (hs : self.«matches».value_of "name" = some s)
    (ht : (strTrim s).isEmpty = true) :
    CmdUpload.name self = Outcome.panicked "the new name must not be empty" ∧
    (∀ v, CmdUpload.name self ≠ Outcome.ok v) := by
  have hn : CmdUpload.name self =
      Outcome.panicked "the new name must not be empty" := by
    unfold CmdUpload.name
    rw [hs]
    show (if (strTrim s).isEmpty = true then
        Outcome.panicked "the new name must not be empty"
      else Outcome.ok (some s)) = _
    rw [ht]
    rfl
  exact ⟨hn, fun v hv => Outcome.noConfusion ((hn.symm.trans hv))⟩

/-- Witness for C4 as amended: the single-space name panics with the actual
diagnostic. -/
theorem upload_name_whitespace_rejected_witness :
    CmdUpload.name wsNameMatches =
      Outcome.panicked "the new name must not be empty" :=
  (upload_name_whitespace_rejected wsNameMatches " " rfl (by decide)).1

/-- C5: for every raw name value that is non-empty after trimming, `name()`
returns the raw, untrimmed value unchanged; when the name flag is absent it
returns `none`. -/
theorem upload_name_passthrough (self : CmdUpload) :
    (self.«matches».value_of "name" = none →
      CmdUpload.name self = Outcome.ok none) ∧
    (∀ s, self.«matches».value_of "name" = some s →
      (strTrim s).isEmpty = false →
      CmdUpload.name self = Outcome.ok (some s)) := by
  refine ⟨fun h => ?_, fun s hs ht => ?_⟩
  · unfold CmdUpload.name
    rw [h]
  · unfold CmdUpload.name
    rw [hs]
    show (if (strTrim s).isEmpty = true then
        Outcome.panicked "the new name must not be empty"
      else Outcome.ok (some s)) = _
    rw [ht]
    rfl

/-- Witness for C5: the untrimmed value `" report.pdf "` comes back verbatim,
and an absent name flag yields `none`. -/
theorem upload_name_passthrough_witness :
    CmdUpload.name wNameSome = Outcome.ok (some " report.pdf ") ∧
    CmdUpload.name wNameNone = Outcome.ok none :=
  ⟨(upload_name_passthrough wNameSome).2 " report.pdf " rfl (by decide),
   (upload_name_passthrough wNameNone).1 rfl⟩

/-- C8: `file()` returns the sole FILE value when present; when it is absent
it faults as a programming invariant violation ("no file specified to
upload"), not as a user-facing quit; under the presence precondition the
fault branch is unreachable. -/
theorem upload_file_accessor (self : CmdUpload) :
    (∀ f, self.«matches».value_of "FILE" = some f →
      CmdUpload.file self = Outcome.ok f) ∧
    (self.«matches».value_of "FILE" = none →
      CmdUpload.file self = Outcome.panicked "no file specified to upload") ∧
    (∀ f, self.«matches».value_of "FILE" = some f →
      (∀ msg, CmdUpload.file self ≠ Outcome.panicked msg) ∧
      (∀ msg, CmdUpload.file self ≠ Outcome.quit msg)) := by
  refine ⟨fun f hf => ?_, fun hn => ?_, fun f hf => ⟨fun msg hmsg => ?_,
    fun msg hmsg => ?_⟩⟩
  · unfold CmdUpload.file
    rw [hf]
  · unfold CmdUpload.file
    rw [hn]
  · have h : CmdUpload.file self = Outcome.ok f := by
      unfold CmdUpload.file
      rw [hf]
    exact Outcome.noConfusion (h.symm.trans hmsg)
  · have h : CmdUpload.file self = Outcome.ok f := by
      unfold CmdUpload.file
      rw [hf]
    exact Outcome.noConfusion (h.symm.trans hmsg)

/-- Witness for C8: with FILE present, `file` returns it and neither panics
nor quits; with FILE absent, the invariant fault fires. -/
theorem upload_file_accessor_witness :
    CmdUpload.file wFileM = Outcome.ok "secret.txt" ∧
    CmdUpload.file wFileNone =
      Outcome.panicked "no file specified to upload" ∧
    CmdUpload.file wFileM ≠ Outcome.panicked "no file specified to upload" :=
  ⟨(upload_file_accessor wFileM).1 "secret.txt" rfl,
   (upload_file_accessor wFileNone).2.1 rfl,
   ((upload_file_accessor wFileM).2.2 "secret.txt" rfl).1
     "no file specified to upload"⟩

/-- C9: the schema-building operation is pure and deterministic — in this
pure embedding `build` is a function of the clipboard feature gate alone, so
invoking it twice yields equal command-schema values. -/
theorem upload_build_pure (clipboard : Bool) :
    CmdUpload.build clipboard = CmdUpload.build clipboard := rfl

/-- C10: `parse` returns the accessor wrapping the `upload` subcommand's
matches exactly when the parent matches contain that subcommand, and `none`
otherwise; as a total function it never fails or terminates the process. -/
theorem upload_parse_subcommand (parent : ParentMatches) :
    (∀ m, parent.subcommand_matches "upload" = some m →
      CmdUpload.parse parent = some { «matches» := m }) ∧
    (parent.subcommand_matches "upload" = none →
      CmdUpload.parse parent = none) := by
  refine ⟨fun m hm => ?_, fun hn => ?_⟩
  · unfold CmdUpload.parse
    rw [hm]
    rfl
  · unfold CmdUpload.parse
    rw [hn]
    rfl

/-- Witness for C10: a parent holding the `upload` subcommand parses to the
wrapped accessor, and a parent without it parses to `none`. -/
theorem upload_parse_subcommand_witness :
    CmdUpload.parse wParentSome = some { «matches» := wArgM } ∧
    CmdUpload.parse wParentNone = none :=
  ⟨(upload_parse_subcommand wParentSome).1 wArgM rfl,
   (upload_parse_subcommand wParentNone).2 rfl⟩

end Ffsend
